import Mathlib

/-!
Shallow embedding of the eye animation core of the three-eyed-skull project
(`eye_controller.py` together with the constants it reads from `config.py`).

Python floats are modelled as real numbers, Python ints (microsecond
timestamps and durations) as integers.  The stochastic draws
(`random.randint`, `random.uniform`) are modelled by an explicit oracle
(`Rng`): each call site consumes a draw identified by its index inside the
invocation, and the predicate `RngOK` states exactly the contract of the
Python functions, namely that a draw over `[a, b]` with `a ≤ b` lands in
`[a, b]`.  Every theorem about random behaviour is quantified over all
oracles satisfying `RngOK`, so it covers every possible execution.
-/

noncomputable section

/-! ### Constants from `config.py` -/

def DISPLAY_SIZE : ℝ := 240

def SACCADE_MIN_DURATION : ℤ := 83000

def SACCADE_MAX_DURATION : ℤ := 166000

def MICROSACCADE_MIN_DURATION : ℤ := 7000

def MICROSACCADE_MAX_DURATION : ℤ := 25000

def GAZE_MAX : ℤ := 3000000

def BLINK_MIN_DURATION : ℤ := 36000

def BLINK_MAX_DURATION : ℤ := 72000

def BLINK_INTERVAL_MIN : ℤ := 4000000

/-- The value set of the `EYE_MODES` dict in `config.py`
(`EYE_MODES.values()`). -/
def EYE_MODES_values : List String := ["tracking", "wandering", "rest"]

def DEFAULT_MODE : String := "tracking"

/-! ### Blink states (`class EyeState` in `eye_controller.py`) -/

def EyeState.NOBLINK : ℕ := 0

def EyeState.ENBLINK : ℕ := 1

def EyeState.DEBLINK : ℕ := 2

/-! ### Random oracle -/

/-- Oracle for the shared pseudo-random source.  `int n a b` models the
`n`-th `random.randint(a, b)` call of one invocation, `real n a b` the
`n`-th `random.uniform(a, b)` call. -/
structure Rng where
  int : ℕ → ℤ → ℤ → ℤ
  real : ℕ → ℝ → ℝ → ℝ

/-- Contract of `random.randint` / `random.uniform`: a draw over a
nonempty range `[a, b]` lands inside it. -/
def RngOK (g : Rng) : Prop :=
  (∀ n a b, a ≤ b → a ≤ g.int n a b ∧ g.int n a b ≤ b) ∧
  (∀ n (a b : ℝ), a ≤ b → a ≤ g.real n a b ∧ g.real n a b ≤ b)

/-- A concrete oracle (every draw returns the lower bound): used to
instantiate theorems at concrete inputs. -/
def rngLo : Rng := ⟨fun _ a _ => a, fun _ a _ => a⟩

theorem rngLo_ok : RngOK rngLo :=
  ⟨fun _ a _ h => ⟨le_refl a, h⟩, fun _ a _ h => ⟨le_refl a, h⟩⟩

/-! ### The `Eye` class -/

/-- State of one `Eye` object (`eye_controller.py`, `Eye.__init__`).  The
`display` handle is hardware-facing and carries no animation state, so it
is omitted; every other instance attribute is a field. -/
structure Eye where
  name : String
  eye_x : ℝ
  eye_y : ℝ
  target_x : ℝ
  target_y : ℝ
  in_motion : Bool
  move_start_time : ℤ
  move_duration : ℤ
  old_x : ℝ
  old_y : ℝ
  new_x : ℝ
  new_y : ℝ
  blink_state : ℕ
  blink_start_time : ℤ
  blink_duration : ℤ
  blink_factor : ℝ
  pupil_factor : ℝ
  upper_lid_factor : ℝ
  lower_lid_factor : ℝ
  last_saccade_stop : ℤ
  saccade_interval : ℤ

/-- `Eye.__init__` with the clock-dependent `last_saccade_stop` taken at
clock value `t0`. -/
def Eye.init (nm : String) (t0 : ℤ) : Eye :=
  { name := nm
    eye_x := 0, eye_y := 0, target_x := 0, target_y := 0
    in_motion := false, move_start_time := 0, move_duration := 0
    old_x := 0, old_y := 0, new_x := 0, new_y := 0
    blink_state := EyeState.NOBLINK, blink_start_time := 0
    blink_duration := 0, blink_factor := 0
    pupil_factor := 0.5, upper_lid_factor := 1, lower_lid_factor := 1
    last_saccade_stop := t0, saccade_interval := 0 }

/-- `Eye.update_autonomous(current_time_us)`. -/
def Eye.update_autonomous (g : Rng) (current_time_us : ℤ) (e : Eye) : Eye :=
  let dt := current_time_us - e.move_start_time
  if e.in_motion then
    if dt ≥ e.move_duration then
      -- movement complete
      let limit := min 1000000 GAZE_MAX
      let e1 := { e with in_motion := false
                         eye_x := e.new_x, old_x := e.new_x
                         eye_y := e.new_y, old_y := e.new_y
                         move_duration := g.int 0 35000 limit }
      let e2 :=
        if e1.saccade_interval = 0 then
          { e1 with last_saccade_stop := current_time_us
                    saccade_interval := g.int 1 e1.move_duration GAZE_MAX }
        else e1
      { e2 with move_start_time := current_time_us }
    else
      -- interpolate position with easing
      let ep : ℝ := (dt : ℝ) / (e.move_duration : ℝ)
      let ee : ℝ := 3 * ep * ep - 2 * ep * ep * ep
      { e with eye_x := e.old_x + (e.new_x - e.old_x) * ee
               eye_y := e.old_y + (e.new_y - e.old_y) * ee }
  else
    -- eye stopped, check if time to move
    let e0 := { e with eye_x := e.old_x, eye_y := e.old_y }
    if dt > e0.move_duration then
      let e1 :=
        if current_time_us - e0.last_saccade_stop > e0.saccade_interval then
          -- time for a big saccade
          let r : ℝ := DISPLAY_SIZE * 0.75
          let nx := g.real 0 (-r) r
          let h := Real.sqrt (r * r - nx * nx)
          { e0 with new_x := nx
                    new_y := g.real 1 (-h) h
                    move_duration := g.int 0 SACCADE_MIN_DURATION SACCADE_MAX_DURATION
                    saccade_interval := 0 }
        else
          -- microsaccade
          let r : ℝ := DISPLAY_SIZE * 0.07
          let dx := g.real 0 (-r) r
          let h := Real.sqrt (r * r - dx * dx)
          { e0 with new_x := e0.eye_x + dx
                    new_y := e0.eye_y + g.real 1 (-h) h
                    move_duration := g.int 0 MICROSACCADE_MIN_DURATION MICROSACCADE_MAX_DURATION }
      { e1 with move_start_time := current_time_us, in_motion := true }
    else e0

/-- `Eye.update_tracking(target_x, target_y)`. -/
def Eye.update_tracking (tx ty : ℝ) (e : Eye) : Eye :=
  let r : ℝ := DISPLAY_SIZE * 0.9
  { e with eye_x := tx * r, eye_y := ty * r }

/-- `Eye.update_blink(current_time_us)`. -/
def Eye.update_blink (current_time_us : ℤ) (e : Eye) : Eye :=
  if e.blink_state ≠ EyeState.NOBLINK then
    let dt := current_time_us - e.blink_start_time
    if dt ≥ e.blink_duration then
      if e.blink_state = EyeState.ENBLINK then
        -- switch to opening
        { e with blink_state := EyeState.DEBLINK
                 blink_duration := e.blink_duration * 2
                 blink_start_time := current_time_us
                 blink_factor := 1 }
      else
        -- blink complete
        { e with blink_state := EyeState.NOBLINK, blink_factor := 0 }
    else
      -- calculate blink progress
      let e1 := { e with blink_factor := (dt : ℝ) / (e.blink_duration : ℝ) }
      if e1.blink_state = EyeState.DEBLINK then
        { e1 with blink_factor := 1 - e1.blink_factor }
      else e1
  else e

/-- `Eye.start_blink(current_time_us, duration)`. -/
def Eye.start_blink (current_time_us duration : ℤ) (e : Eye) : Eye :=
  if e.blink_state = EyeState.NOBLINK then
    { e with blink_state := EyeState.ENBLINK
             blink_start_time := current_time_us
             blink_duration := duration }
  else e

/-! ### The `EyeController` class -/

/-- State of the `EyeController` (`EyeController.__init__`).  The three
entries of the `self.eyes` dict are the fields `left`, `right`, `middle`;
the display manager is hardware-facing and omitted. -/
structure EyeController where
  mode : String
  left : Eye
  right : Eye
  middle : Eye
  last_blink_time : ℤ
  next_blink_time : ℤ

/-- `EyeController.__init__` at clock value `t0`, with `g` supplying the
one `randint(BLINK_INTERVAL_MIN, BLINK_INTERVAL_MIN * 2)` draw. -/
def EyeController.init (g : Rng) (t0 : ℤ) : EyeController :=
  { mode := DEFAULT_MODE
    left := Eye.init "left" t0
    right := Eye.init "right" t0
    middle := Eye.init "middle" t0
    last_blink_time := t0
    next_blink_time := t0 + g.int 0 BLINK_INTERVAL_MIN (BLINK_INTERVAL_MIN * 2) }

/-- `EyeController.set_mode(mode)`.  The Python method has no `return`
statement, so the caller receives `None` whether the mode was accepted or
rejected; that (absent) return value is modelled as the second component
`(none : Option Bool)`.  The membership test is `mode in EYE_MODES.values()`. -/
def EyeController.set_mode (mode : String) (c : EyeController) :
    EyeController × Option Bool :=
  if mode ∈ EYE_MODES_values then ({ c with mode := mode }, none)
  else (c, none)

/-- First block of `EyeController.update`: the synchronized blink
scheduler (`if current_time_us >= self.next_blink_time: ...`).  `g.int 0`
supplies the `randint(BLINK_MIN_DURATION, BLINK_MAX_DURATION)` draw and
`g.int 1` the `randint(BLINK_INTERVAL_MIN, BLINK_INTERVAL_MIN * 2)` draw. -/
def EyeController.blinkSched (g : Rng) (current_time_us : ℤ)
    (c : EyeController) : EyeController :=
  if current_time_us ≥ c.next_blink_time then
    let duration := g.int 0 BLINK_MIN_DURATION BLINK_MAX_DURATION
    { c with left := c.left.start_blink current_time_us duration
             right := c.right.start_blink current_time_us duration
             middle := c.middle.start_blink current_time_us duration
             last_blink_time := current_time_us
             next_blink_time := current_time_us + duration * 3 +
               g.int 1 BLINK_INTERVAL_MIN (BLINK_INTERVAL_MIN * 2) }
  else c

/-- Second block of `EyeController.update`: advance the blink animation of
every eye. -/
def EyeController.blinkAdvance (current_time_us : ℤ) (c : EyeController) :
    EyeController :=
  { c with left := c.left.update_blink current_time_us
           right := c.right.update_blink current_time_us
           middle := c.middle.update_blink current_time_us }

/-- Third block of `EyeController.update`: mode-conditional dispatch of
the motion update.  `gL`, `gR`, `gM` are the oracles consumed by the
autonomous updates of the left, right, and middle eye; `face` models the
`face_position` argument (`none` for Python `None`, and a non-empty tuple
is truthy). -/
def EyeController.modeDispatch (gL gR gM : Rng) (current_time_us : ℤ)
    (face : Option (ℝ × ℝ)) (c : EyeController) : EyeController :=
  if c.mode = "tracking" then
    -- middle eye tracks, left/right wander
    let middle :=
      match face with
      | some p => c.middle.update_tracking p.1 p.2
      | none => c.middle.update_autonomous gM current_time_us
    { c with middle := middle
             left := c.left.update_autonomous gL current_time_us
             right := c.right.update_autonomous gR current_time_us }
  else if c.mode = "wandering" then
    -- all eyes wander
    { c with left := c.left.update_autonomous gL current_time_us
             right := c.right.update_autonomous gR current_time_us
             middle := c.middle.update_autonomous gM current_time_us }
  else if c.mode = "rest" then
    -- eyes closed or minimal movement
    { c with left := { c.left with blink_factor := 1 }
             right := { c.right with blink_factor := 1 }
             middle := { c.middle with blink_factor := 1 } }
  else c

/-- `EyeController.update(face_position)` at clock value
`current_time_us`: the three blocks of the method body in source order. -/
def EyeController.update (gB gL gR gM : Rng) (current_time_us : ℤ)
    (face : Option (ℝ × ℝ)) (c : EyeController) : EyeController :=
  (c.blinkSched gB current_time_us).blinkAdvance current_time_us
    |>.modeDispatch gL gR gM current_time_us face

/-- `n` consecutive controller ticks; tick `k` runs at time `times k`
with target `faces k` and oracles `gB k`, `gL k`, `gR k`, `gM k`. -/
def EyeController.updateN (gB gL gR gM : ℕ → Rng) (times : ℕ → ℤ)
    (faces : ℕ → Option (ℝ × ℝ)) : ℕ → EyeController → EyeController
  | 0, c => c
  | n + 1, c =>
      (EyeController.updateN gB gL gR gM times faces n c).update
        (gB n) (gL n) (gR n) (gM n) (times n) (faces n)

/-! ### Observation helpers -/

/-- The `MotionState` portion of an eye: `{old, new, start_time, duration,
moving, saccade_interval, last_saccade_stop}`. -/
def motionOf (e : Eye) : (ℝ × ℝ) × (ℝ × ℝ) × ℤ × ℤ × Bool × ℤ × ℤ :=
  ((e.old_x, e.old_y), (e.new_x, e.new_y), e.move_start_time,
    e.move_duration, e.in_motion, e.saccade_interval, e.last_saccade_stop)

/-- The `BlinkState` variant tag together with its start/duration timing
fields. -/
def blinkTimingOf (e : Eye) : ℕ × ℤ × ℤ :=
  (e.blink_state, e.blink_start_time, e.blink_duration)

/-! ### Theorems -/

/-- C1: for any eye and any target `(tx, ty)` with both components in
`[-1, 1]`, `update_tracking` sets the rendered position on that same call,
with no interpolation, to exactly `(tx * 0.9 * DISPLAY_SIZE,
ty * 0.9 * DISPLAY_SIZE)`. -/
theorem update_tracking_exact (e : Eye) (tx ty : ℝ)
    (hx : -1 ≤ tx ∧ tx ≤ 1) (hy : -1 ≤ ty ∧ ty ≤ 1) :
    (e.update_tracking tx ty).eye_x = tx * 0.9 * DISPLAY_SIZE ∧
    (e.update_tracking tx ty).eye_y = ty * 0.9 * DISPLAY_SIZE := by
  constructor <;> simp [Eye.update_tracking] <;> ring

/-- C1 witness: target `(0.5, -0.5)` puts the eye exactly at
`(0.45 * DISPLAY_SIZE, -0.45 * DISPLAY_SIZE)`. -/
theorem update_tracking_exact_witness :
    ((Eye.init "middle" 0).update_tracking 0.5 (-0.5)).eye_x
        = 0.45 * DISPLAY_SIZE ∧
    ((Eye.init "middle" 0).update_tracking 0.5 (-0.5)).eye_y
        = -0.45 * DISPLAY_SIZE := by
  have h := update_tracking_exact (Eye.init "middle" 0) 0.5 (-0.5)
    (by norm_num) (by norm_num)
  refine ⟨h.1.trans (by norm_num), h.2.trans (by norm_num)⟩

/-- C10: `update_tracking` writes only the rendered position
`(eye_x, eye_y)`; every other field of the eye — old and new positions,
moving flag, move start time and duration, saccade interval, last saccade
stop, all blink fields, targets, appearance factors, and identity — is
unchanged, so the tracked position is never persisted into the motion
state. -/
theorem update_tracking_only_position (e : Eye) (tx ty : ℝ) :
    (e.update_tracking tx ty).name = e.name ∧
    (e.update_tracking tx ty).target_x = e.target_x ∧
    (e.update_tracking tx ty).target_y = e.target_y ∧
    (e.update_tracking tx ty).in_motion = e.in_motion ∧
    (e.update_tracking tx ty).move_start_time = e.move_start_time ∧
    (e.update_tracking tx ty).move_duration = e.move_duration ∧
    (e.update_tracking tx ty).old_x = e.old_x ∧
    (e.update_tracking tx ty).old_y = e.old_y ∧
    (e.update_tracking tx ty).new_x = e.new_x ∧
    (e.update_tracking tx ty).new_y = e.new_y ∧
    (e.update_tracking tx ty).blink_state = e.blink_state ∧
    (e.update_tracking tx ty).blink_start_time = e.blink_start_time ∧
    (e.update_tracking tx ty).blink_duration = e.blink_duration ∧
    (e.update_tracking tx ty).blink_factor = e.blink_factor ∧
    (e.update_tracking tx ty).pupil_factor = e.pupil_factor ∧
    (e.update_tracking tx ty).upper_lid_factor = e.upper_lid_factor ∧
    (e.update_tracking tx ty).lower_lid_factor = e.lower_lid_factor ∧
    (e.update_tracking tx ty).last_saccade_stop = e.last_saccade_stop ∧
    (e.update_tracking tx ty).saccade_interval = e.saccade_interval :=
  ⟨rfl, rfl, rfl, rfl, rfl, rfl, rfl, rfl, rfl, rfl, rfl, rfl, rfl, rfl,
    rfl, rfl, rfl, rfl, rfl⟩

/-- C2: a blink started at `t = 0` with duration `50000` runs the
documented scenario: factor `0.5` at `t = 25000`; at `t = 50000` the state
switches from closing (`ENBLINK`) to opening (`DEBLINK`) with the duration
doubled to `100000` and factor exactly `1`; factor `0.5` at `t = 100000`;
factor `0` and state `NOBLINK` at `t = 150000`. -/
theorem blink_scenario :
    ((Eye.init "left" 0).start_blink 0 50000 |>.update_blink 25000).blink_factor
        = 0.5 ∧
    ((Eye.init "left" 0).start_blink 0 50000 |>.update_blink 25000
        |>.update_blink 50000).blink_state = EyeState.DEBLINK ∧
    ((Eye.init "left" 0).start_blink 0 50000 |>.update_blink 25000
        |>.update_blink 50000).blink_duration = 100000 ∧
    ((Eye.init "left" 0).start_blink 0 50000 |>.update_blink 25000
        |>.update_blink 50000).blink_factor = 1 ∧
    ((Eye.init "left" 0).start_blink 0 50000 |>.update_blink 25000
        |>.update_blink 50000 |>.update_blink 100000).blink_factor = 0.5 ∧
    ((Eye.init "left" 0).start_blink 0 50000 |>.update_blink 25000
        |>.update_blink 50000 |>.update_blink 100000
        |>.update_blink 150000).blink_factor = 0 ∧
    ((Eye.init "left" 0).start_blink 0 50000 |>.update_blink 25000
        |>.update_blink 50000 |>.update_blink 100000
        |>.update_blink 150000).blink_state = EyeState.NOBLINK := by
  norm_num [Eye.init, Eye.start_blink, Eye.update_blink,
    EyeState.NOBLINK, EyeState.ENBLINK, EyeState.DEBLINK]

/-- C3 counterexample: the claimed invariant is not preserved by
`update_tracking`: from the freshly initialised (idle) eye, one call of
`update_tracking 0.5 (-0.5)` leaves `moving = false` but moves the
rendered position away from `old`. -/
theorem update_tracking_invariant_counterexample :
    ((Eye.init "middle" 0).update_tracking 0.5 (-0.5)).in_motion = false ∧
    ((Eye.init "middle" 0).update_tracking 0.5 (-0.5)).eye_x ≠
      ((Eye.init "middle" 0).update_tracking 0.5 (-0.5)).old_x := by
  refine ⟨rfl, ?_⟩
  norm_num [Eye.init, Eye.update_tracking, DISPLAY_SIZE]

/-- C3 amended: whenever `update_autonomous` leaves the eye not moving,
the rendered position equals `old`; `update_blink` and `start_blink`
touch neither the position, `old`, nor the moving flag, so they preserve
the invariant.  (`update_tracking` violates it, per the
counterexample.) -/
theorem idle_position_equals_old (g : Rng) (e : Eye) (now tb d : ℤ) :
    ((e.update_autonomous g now).in_motion = false →
      (e.update_autonomous g now).eye_x = (e.update_autonomous g now).old_x ∧
      (e.update_autonomous g now).eye_y = (e.update_autonomous g now).old_y) ∧
    ((e.update_blink now).eye_x = e.eye_x ∧
      (e.update_blink now).old_x = e.old_x ∧
      (e.update_blink now).eye_y = e.eye_y ∧
      (e.update_blink now).old_y = e.old_y ∧
      (e.update_blink now).in_motion = e.in_motion) ∧
    ((e.start_blink tb d).eye_x = e.eye_x ∧
      (e.start_blink tb d).old_x = e.old_x ∧
      (e.start_blink tb d).eye_y = e.eye_y ∧
      (e.start_blink tb d).old_y = e.old_y ∧
      (e.start_blink tb d).in_motion = e.in_motion) := by
  refine ⟨?_, ?_, ?_⟩
  · simp only [Eye.update_autonomous]
    by_cases hm : e.in_motion = true <;>
      by_cases hd : now - e.move_start_time ≥ e.move_duration <;>
        by_cases hd2 : now - e.move_start_time > e.move_duration <;>
          by_cases hs : e.saccade_interval = 0 <;>
            simp [hm, hd, hd2, hs]
  · simp only [Eye.update_blink, EyeState.NOBLINK, EyeState.ENBLINK,
      EyeState.DEBLINK]
    by_cases h1 : e.blink_state = 0 <;>
      by_cases h2 : now - e.blink_start_time ≥ e.blink_duration <;>
        by_cases h3 : e.blink_state = 1 <;>
          by_cases h4 : e.blink_state = 2 <;>
            simp [h1, h2, h3, h4]
  · simp only [Eye.start_blink]
    by_cases h : e.blink_state = EyeState.NOBLINK <;> simp [h]

/-- C3 amended witness: running `update_autonomous` on the freshly
initialised eye (which it leaves idle, since `dt = 0` is not greater than
the zero hold duration) keeps the rendered position equal to `old`. -/
theorem idle_position_equals_old_witness :
    ((Eye.init "left" 0).update_autonomous rngLo 0).eye_x
        = ((Eye.init "left" 0).update_autonomous rngLo 0).old_x ∧
    ((Eye.init "left" 0).update_autonomous rngLo 0).eye_y
        = ((Eye.init "left" 0).update_autonomous rngLo 0).old_y :=
  (idle_position_equals_old rngLo (Eye.init "left" 0) 0 0 0).1
    (by norm_num [Eye.init, Eye.update_autonomous])

/-- C6: while a move is in progress (`moving` and
`0 ≤ now - start_time < duration`), the rendered position is the smoothstep
interpolation `old + (new - old) * (3 e^2 - 2 e^3)` with
`e = (now - start_time) / duration`. -/
theorem update_autonomous_easing (g : Rng) (e : Eye) (now : ℤ)
    (hm : e.in_motion = true) (h0 : 0 ≤ now - e.move_start_time)
    (h1 : now - e.move_start_time < e.move_duration) :
    (e.update_autonomous g now).eye_x =
      e.old_x + (e.new_x - e.old_x) *
        (3 * (((now - e.move_start_time : ℤ) : ℝ) / ((e.move_duration : ℤ) : ℝ)) ^ 2
          - 2 * (((now - e.move_start_time : ℤ) : ℝ) / ((e.move_duration : ℤ) : ℝ)) ^ 3) ∧
    (e.update_autonomous g now).eye_y =
      e.old_y + (e.new_y - e.old_y) *
        (3 * (((now - e.move_start_time : ℤ) : ℝ) / ((e.move_duration : ℤ) : ℝ)) ^ 2
          - 2 * (((now - e.move_start_time : ℤ) : ℝ) / ((e.move_duration : ℤ) : ℝ)) ^ 3) := by
  unfold Eye.update_autonomous
  rw [if_pos hm, if_neg (not_le.mpr h1)]
  constructor <;> dsimp only <;> push_cast <;> ring

/-- A concrete half-way-through-a-move eye: moving from `old = (0, 0)`
towards `new = (10, -10)` with duration `100` and start time `0`. -/
def eyeMidMove : Eye :=
  { Eye.init "left" 0 with
      in_motion := true
      move_duration := 100
      new_x := 10
      new_y := -10 }

/-- C4: when a move completes (`moving` and `now - start_time >=
duration`), the eye snaps to `new` (position and `old` both set to it),
`moving` becomes false, the new hold duration lies in
`[35000, min 1000000 GAZE_MAX]`, the hold start time `move_start_time` is
set to `now`, and if no saccade interval was pending the interval is drawn
in `[hold_duration, GAZE_MAX]` with `last_saccade_stop` recorded as
`now`. -/
theorem update_autonomous_completion (g : Rng) (hg : RngOK g) (e : Eye)
    (now : ℤ) (hm : e.in_motion = true)
    (hd : now - e.move_start_time ≥ e.move_duration) :
    (e.update_autonomous g now).in_motion = false ∧
    (e.update_autonomous g now).eye_x = e.new_x ∧
    (e.update_autonomous g now).old_x = e.new_x ∧
    (e.update_autonomous g now).eye_y = e.new_y ∧
    (e.update_autonomous g now).old_y = e.new_y ∧
    35000 ≤ (e.update_autonomous g now).move_duration ∧
    (e.update_autonomous g now).move_duration ≤ min 1000000 GAZE_MAX ∧
    (e.update_autonomous g now).move_start_time = now ∧
    (e.saccade_interval = 0 →
      (e.update_autonomous g now).last_saccade_stop = now ∧
      (e.update_autonomous g now).move_duration ≤
        (e.update_autonomous g now).saccade_interval ∧
      (e.update_autonomous g now).saccade_interval ≤ GAZE_MAX) := by
  have hlim : (35000 : ℤ) ≤ min 1000000 GAZE_MAX := by norm_num [GAZE_MAX]
  have hd1 := hg.1 0 35000 (min 1000000 GAZE_MAX) hlim
  have hd2 := hg.1 1 (g.int 0 35000 (min 1000000 GAZE_MAX)) GAZE_MAX
    (le_trans hd1.2 (by norm_num [GAZE_MAX]))
  unfold Eye.update_autonomous
  rw [if_pos hm, if_pos hd]
  by_cases hs : e.saccade_interval = 0 <;>
    simp [hs, hd1.1, hd1.2, hd2.1, hd2.2]

/-- C4 witness: completing the concrete move of `eyeMidMove` at
`now = 100` with the lower-bound oracle yields an idle eye at `(10, -10)`
with hold duration and saccade interval inside the claimed ranges. -/
theorem update_autonomous_completion_witness :
    (eyeMidMove.update_autonomous rngLo 100).in_motion = false ∧
    (eyeMidMove.update_autonomous rngLo 100).eye_x = 10 ∧
    35000 ≤ (eyeMidMove.update_autonomous rngLo 100).move_duration ∧
    (eyeMidMove.update_autonomous rngLo 100).last_saccade_stop = 100 ∧
    (eyeMidMove.update_autonomous rngLo 100).saccade_interval ≤ GAZE_MAX := by
  obtain ⟨h1, h2, -, -, -, h6, -, -, h9⟩ :=
    update_autonomous_completion rngLo rngLo_ok eyeMidMove 100 rfl
      (by norm_num [eyeMidMove, Eye.init])
  obtain ⟨h9a, -, h9c⟩ := h9 rfl
  exact ⟨h1, h2, h6, h9a, h9c⟩

/-- Polar disk sampling: drawing `x` uniformly in `[-r, r]` and then `y`
in `[-h, h]` with `h = sqrt(r*r - x*x)` lands inside the disk of radius
`r` (squared-norm form). -/
theorem polar_sample_sq_bound (g : Rng) (hg : RngOK g) (r : ℝ)
    (hr : 0 ≤ r) :
    g.real 0 (-r) r ^ 2 +
      g.real 1 (-Real.sqrt (r * r - g.real 0 (-r) r * g.real 0 (-r) r))
        (Real.sqrt (r * r - g.real 0 (-r) r * g.real 0 (-r) r)) ^ 2
      ≤ r * r := by
  obtain ⟨hx1, hx2⟩ := hg.2 0 (-r) r (by linarith)
  set x := g.real 0 (-r) r with hxdef
  have hxx : x ^ 2 ≤ r ^ 2 := sq_le_sq' hx1 hx2
  have hnn : 0 ≤ r * r - x * x := by nlinarith
  obtain ⟨hy1, hy2⟩ := hg.2 1 (-Real.sqrt (r * r - x * x))
    (Real.sqrt (r * r - x * x))
    (by have := Real.sqrt_nonneg (r * r - x * x); linarith)
  set y := g.real 1 (-Real.sqrt (r * r - x * x)) (Real.sqrt (r * r - x * x))
  have hyy : y ^ 2 ≤ Real.sqrt (r * r - x * x) ^ 2 := sq_le_sq' hy1 hy2
  rw [Real.sq_sqrt hnn] at hyy
  nlinarith [hyy, hxx]

/-- C5: when the idle eye starts a move, a major saccade target lies
inside the disk of radius `0.75 * DISPLAY_SIZE` around the origin, and a
microsaccade displacement relative to the settled position `old` lies
inside the disk of radius `0.07 * DISPLAY_SIZE` (both stated in
squared-norm form). -/
theorem saccade_bounds (g : Rng) (hg : RngOK g) (e : Eye) (now : ℤ)
    (hm : e.in_motion = false)
    (hd : now - e.move_start_time > e.move_duration) :
    (now - e.last_saccade_stop > e.saccade_interval →
      (e.update_autonomous g now).new_x ^ 2 +
        (e.update_autonomous g now).new_y ^ 2
        ≤ (0.75 * DISPLAY_SIZE) ^ 2) ∧
    (¬(now - e.last_saccade_stop > e.saccade_interval) →
      ((e.update_autonomous g now).new_x - (e.update_autonomous g now).old_x) ^ 2 +
        ((e.update_autonomous g now).new_y - (e.update_autonomous g now).old_y) ^ 2
        ≤ (0.07 * DISPLAY_SIZE) ^ 2) := by
  unfold Eye.update_autonomous
  rw [if_neg (by simp [hm]), if_pos hd]
  constructor
  · intro hb
    rw [if_pos hb]
    dsimp only
    calc g.real 0 (-(DISPLAY_SIZE * 0.75)) (DISPLAY_SIZE * 0.75) ^ 2 +
          g.real 1
            (-Real.sqrt (DISPLAY_SIZE * 0.75 * (DISPLAY_SIZE * 0.75) -
              g.real 0 (-(DISPLAY_SIZE * 0.75)) (DISPLAY_SIZE * 0.75) *
                g.real 0 (-(DISPLAY_SIZE * 0.75)) (DISPLAY_SIZE * 0.75)))
            (Real.sqrt (DISPLAY_SIZE * 0.75 * (DISPLAY_SIZE * 0.75) -
              g.real 0 (-(DISPLAY_SIZE * 0.75)) (DISPLAY_SIZE * 0.75) *
                g.real 0 (-(DISPLAY_SIZE * 0.75)) (DISPLAY_SIZE * 0.75))) ^ 2
        ≤ DISPLAY_SIZE * 0.75 * (DISPLAY_SIZE * 0.75) :=
          polar_sample_sq_bound g hg (DISPLAY_SIZE * 0.75)
            (by norm_num [DISPLAY_SIZE])
      _ = (0.75 * DISPLAY_SIZE) ^ 2 := by ring
  · intro hb
    rw [if_neg hb]
    dsimp only
    have h1 :
        ∀ a b : ℝ, a + b - a = b := fun a b => by ring
    rw [h1, h1]
    calc g.real 0 (-(DISPLAY_SIZE * 0.07)) (DISPLAY_SIZE * 0.07) ^ 2 +
          g.real 1
            (-Real.sqrt (DISPLAY_SIZE * 0.07 * (DISPLAY_SIZE * 0.07) -
              g.real 0 (-(DISPLAY_SIZE * 0.07)) (DISPLAY_SIZE * 0.07) *
                g.real 0 (-(DISPLAY_SIZE * 0.07)) (DISPLAY_SIZE * 0.07)))
            (Real.sqrt (DISPLAY_SIZE * 0.07 * (DISPLAY_SIZE * 0.07) -
              g.real 0 (-(DISPLAY_SIZE * 0.07)) (DISPLAY_SIZE * 0.07) *
                g.real 0 (-(DISPLAY_SIZE * 0.07)) (DISPLAY_SIZE * 0.07))) ^ 2
        ≤ DISPLAY_SIZE * 0.07 * (DISPLAY_SIZE * 0.07) :=
          polar_sample_sq_bound g hg (DISPLAY_SIZE * 0.07)
            (by norm_num [DISPLAY_SIZE])
      _ = (0.07 * DISPLAY_SIZE) ^ 2 := by ring

/-- C5 witness: the freshly initialised idle eye fires a major saccade at
`now = 1` (hold expired, no pending interval), and the drawn target
satisfies the disk bound. -/
theorem saccade_bounds_witness :
    ((Eye.init "left" 0).update_autonomous rngLo 1).new_x ^ 2 +
      ((Eye.init "left" 0).update_autonomous rngLo 1).new_y ^ 2
      ≤ (0.75 * DISPLAY_SIZE) ^ 2 :=
  (saccade_bounds rngLo rngLo_ok (Eye.init "left" 0) 1 rfl
      (by norm_num [Eye.init])).1 (by norm_num [Eye.init])

/-- C6 witness: a concrete mid-move evaluation — at `dt = 50` the position
of `eyeMidMove` is exactly `(5, -5)` (smoothstep of `1/2` is `1/2`). -/
theorem update_autonomous_easing_witness :
    (eyeMidMove.update_autonomous rngLo 50).eye_x = 5 ∧
    (eyeMidMove.update_autonomous rngLo 50).eye_y = -5 := by
  have h := update_autonomous_easing rngLo eyeMidMove 50 rfl
    (by norm_num [eyeMidMove, Eye.init]) (by norm_num [eyeMidMove, Eye.init])
  refine ⟨h.1.trans ?_, h.2.trans ?_⟩ <;>
    norm_num [eyeMidMove, Eye.init]

/-! ### Controller-level lemmas and theorems -/

theorem blinkAdvance_mode (now : ℤ) (c : EyeController) :
    (c.blinkAdvance now).mode = c.mode := rfl

theorem blinkSched_mode (g : Rng) (now : ℤ) (c : EyeController) :
    (c.blinkSched g now).mode = c.mode := by
  unfold EyeController.blinkSched
  split_ifs <;> rfl

theorem blinkAdvance_next (now : ℤ) (c : EyeController) :
    (c.blinkAdvance now).next_blink_time = c.next_blink_time := rfl

theorem modeDispatch_next (gL gR gM : Rng) (now : ℤ)
    (face : Option (ℝ × ℝ)) (c : EyeController) :
    (c.modeDispatch gL gR gM now face).next_blink_time =
      c.next_blink_time := by
  unfold EyeController.modeDispatch
  split_ifs <;> rfl

theorem start_blink_motion (now d : ℤ) (e : Eye) :
    motionOf (e.start_blink now d) = motionOf e := by
  simp only [Eye.start_blink]
  by_cases h : e.blink_state = EyeState.NOBLINK <;> simp [h, motionOf]

theorem update_blink_motion (now : ℤ) (e : Eye) :
    motionOf (e.update_blink now) = motionOf e := by
  simp only [Eye.update_blink, EyeState.NOBLINK, EyeState.ENBLINK,
    EyeState.DEBLINK]
  by_cases h1 : e.blink_state = 0 <;>
    by_cases h2 : now - e.blink_start_time ≥ e.blink_duration <;>
      by_cases h3 : e.blink_state = 1 <;>
        by_cases h4 : e.blink_state = 2 <;>
          simp [h1, h2, h3, h4, motionOf]

theorem blinkSched_motion_left (g : Rng) (now : ℤ) (c : EyeController) :
    motionOf (c.blinkSched g now).left = motionOf c.left := by
  unfold EyeController.blinkSched
  split_ifs <;> simp [start_blink_motion]

theorem blinkSched_motion_right (g : Rng) (now : ℤ) (c : EyeController) :
    motionOf (c.blinkSched g now).right = motionOf c.right := by
  unfold EyeController.blinkSched
  split_ifs <;> simp [start_blink_motion]

theorem blinkSched_motion_middle (g : Rng) (now : ℤ) (c : EyeController) :
    motionOf (c.blinkSched g now).middle = motionOf c.middle := by
  unfold EyeController.blinkSched
  split_ifs <;> simp [start_blink_motion]

/-- In `rest` mode, the dispatch block reduces to the pure
`blink_factor := 1` override of every eye. -/
theorem modeDispatch_rest (gL gR gM : Rng) (now : ℤ)
    (face : Option (ℝ × ℝ)) (c : EyeController) (hm : c.mode = "rest") :
    c.modeDispatch gL gR gM now face =
      { c with left := { c.left with blink_factor := 1 }
               right := { c.right with blink_factor := 1 }
               middle := { c.middle with blink_factor := 1 } } := by
  unfold EyeController.modeDispatch
  rw [hm, if_neg (by decide), if_neg (by decide), if_pos rfl]

/-- One controller tick in `rest` mode: the mode survives, no eye's
`MotionState` changes, and every eye ends the tick with
`blink_factor = 1`. -/
theorem rest_step (gB gL gR gM : Rng) (now : ℤ) (face : Option (ℝ × ℝ))
    (c : EyeController) (hm : c.mode = "rest") :
    (c.update gB gL gR gM now face).mode = "rest" ∧
    motionOf (c.update gB gL gR gM now face).left = motionOf c.left ∧
    motionOf (c.update gB gL gR gM now face).right = motionOf c.right ∧
    motionOf (c.update gB gL gR gM now face).middle = motionOf c.middle ∧
    (c.update gB gL gR gM now face).left.blink_factor = 1 ∧
    (c.update gB gL gR gM now face).right.blink_factor = 1 ∧
    (c.update gB gL gR gM now face).middle.blink_factor = 1 := by
  have h1 : ((c.blinkSched gB now).blinkAdvance now).mode = "rest" := by
    rw [blinkAdvance_mode, blinkSched_mode, hm]
  unfold EyeController.update
  rw [modeDispatch_rest gL gR gM now face _ h1]
  refine ⟨h1, ?_, ?_, ?_, rfl, rfl, rfl⟩
  · exact (update_blink_motion now _).trans (blinkSched_motion_left gB now c)
  · exact (update_blink_motion now _).trans (blinkSched_motion_right gB now c)
  · exact (update_blink_motion now _).trans (blinkSched_motion_middle gB now c)

/-- C8: starting from any controller in `rest` mode, any number `n` of
consecutive ticks leaves every eye's `MotionState` (old, new, start time,
duration, moving flag, saccade interval, last saccade stop) exactly as it
was; after at least one tick every eye's `blink_factor` is `1`; and the
`rest` dispatch override itself never mutates any eye's blink variant or
its start/duration timing fields. -/
theorem rest_mode_isolation (gB gL gR gM : ℕ → Rng) (times : ℕ → ℤ)
    (faces : ℕ → Option (ℝ × ℝ)) (c : EyeController)
    (hm : c.mode = "rest") (n : ℕ) :
    (EyeController.updateN gB gL gR gM times faces n c).mode = "rest" ∧
    motionOf (EyeController.updateN gB gL gR gM times faces n c).left =
      motionOf c.left ∧
    motionOf (EyeController.updateN gB gL gR gM times faces n c).right =
      motionOf c.right ∧
    motionOf (EyeController.updateN gB gL gR gM times faces n c).middle =
      motionOf c.middle ∧
    (1 ≤ n →
      (EyeController.updateN gB gL gR gM times faces n c).left.blink_factor = 1 ∧
      (EyeController.updateN gB gL gR gM times faces n c).right.blink_factor = 1 ∧
      (EyeController.updateN gB gL gR gM times faces n c).middle.blink_factor = 1) ∧
    (∀ c' : EyeController, c'.mode = "rest" →
      blinkTimingOf (c'.modeDispatch (gL n) (gR n) (gM n) (times n) (faces n)).left =
        blinkTimingOf c'.left ∧
      blinkTimingOf (c'.modeDispatch (gL n) (gR n) (gM n) (times n) (faces n)).right =
        blinkTimingOf c'.right ∧
      blinkTimingOf (c'.modeDispatch (gL n) (gR n) (gM n) (times n) (faces n)).middle =
        blinkTimingOf c'.middle) := by
  induction n with
  | zero =>
      refine ⟨hm, rfl, rfl, rfl, fun h => absurd h (by norm_num), ?_⟩
      intro c' hc'
      rw [modeDispatch_rest _ _ _ _ _ c' hc']
      exact ⟨rfl, rfl, rfl⟩
  | succ n ih =>
      obtain ⟨ihm, ihl, ihr, ihmid, -, -⟩ := ih
      obtain ⟨sm, sl, sr, smid, bf1, bf2, bf3⟩ :=
        rest_step (gB n) (gL n) (gR n) (gM n) (times n) (faces n) _ ihm
      refine ⟨sm, sl.trans ihl, sr.trans ihr, smid.trans ihmid,
        fun _ => ⟨bf1, bf2, bf3⟩, ?_⟩
      intro c' hc'
      rw [modeDispatch_rest _ _ _ _ _ c' hc']
      exact ⟨rfl, rfl, rfl⟩

/-- A concrete controller as built by `EyeController.__init__` at clock
value `0` with the lower-bound oracle (`next_blink_time = 4000000`). -/
def ctrl0 : EyeController := EyeController.init rngLo 0

/-- `ctrl0` switched to `rest` mode. -/
def ctrlRest : EyeController := { ctrl0 with mode := "rest" }

/-- C8 witness: two `rest`-mode ticks on a concrete controller leave the
left eye's motion state untouched and leave its `blink_factor` at `1`. -/
theorem rest_mode_isolation_witness :
    motionOf (EyeController.updateN (fun _ => rngLo) (fun _ => rngLo)
        (fun _ => rngLo) (fun _ => rngLo) (fun _ => 0) (fun _ => none) 2
        ctrlRest).left = motionOf ctrlRest.left ∧
    (EyeController.updateN (fun _ => rngLo) (fun _ => rngLo)
        (fun _ => rngLo) (fun _ => rngLo) (fun _ => 0) (fun _ => none) 2
        ctrlRest).left.blink_factor = 1 := by
  obtain ⟨-, hl, -, -, hbf, -⟩ := rest_mode_isolation (fun _ => rngLo)
    (fun _ => rngLo) (fun _ => rngLo) (fun _ => rngLo) (fun _ => 0)
    (fun _ => none) ctrlRest rfl 2
  exact ⟨hl, (hbf (by norm_num)).1⟩

/-- C7: whenever `now >= next_blink_time`, the tick draws one blink
duration in `[BLINK_MIN_DURATION, BLINK_MAX_DURATION]`, invokes
`start_blink` with that same `(now, duration)` pair on all three eyes
(a no-op for an eye whose blink state is not `NOBLINK`), and reschedules
`next_blink_time` to `now + duration * 3 + i` with
`i ∈ [BLINK_INTERVAL_MIN, BLINK_INTERVAL_MIN * 2]`. -/
theorem blink_scheduler_sync (gB gL gR gM : Rng) (now : ℤ)
    (face : Option (ℝ × ℝ)) (c : EyeController) (hg : RngOK gB)
    (h : now ≥ c.next_blink_time) :
    BLINK_MIN_DURATION ≤ gB.int 0 BLINK_MIN_DURATION BLINK_MAX_DURATION ∧
    gB.int 0 BLINK_MIN_DURATION BLINK_MAX_DURATION ≤ BLINK_MAX_DURATION ∧
    (c.blinkSched gB now).left =
      c.left.start_blink now (gB.int 0 BLINK_MIN_DURATION BLINK_MAX_DURATION) ∧
    (c.blinkSched gB now).right =
      c.right.start_blink now (gB.int 0 BLINK_MIN_DURATION BLINK_MAX_DURATION) ∧
    (c.blinkSched gB now).middle =
      c.middle.start_blink now (gB.int 0 BLINK_MIN_DURATION BLINK_MAX_DURATION) ∧
    (∀ e : Eye, e.blink_state ≠ EyeState.NOBLINK →
      e.start_blink now (gB.int 0 BLINK_MIN_DURATION BLINK_MAX_DURATION) = e) ∧
    (c.update gB gL gR gM now face).next_blink_time =
      now + gB.int 0 BLINK_MIN_DURATION BLINK_MAX_DURATION * 3 +
        gB.int 1 BLINK_INTERVAL_MIN (BLINK_INTERVAL_MIN * 2) ∧
    BLINK_INTERVAL_MIN ≤ gB.int 1 BLINK_INTERVAL_MIN (BLINK_INTERVAL_MIN * 2) ∧
    gB.int 1 BLINK_INTERVAL_MIN (BLINK_INTERVAL_MIN * 2) ≤
      BLINK_INTERVAL_MIN * 2 := by
  have hda := hg.1 0 BLINK_MIN_DURATION BLINK_MAX_DURATION
    (by norm_num [BLINK_MIN_DURATION, BLINK_MAX_DURATION])
  have hia := hg.1 1 BLINK_INTERVAL_MIN (BLINK_INTERVAL_MIN * 2)
    (by norm_num [BLINK_INTERVAL_MIN])
  refine ⟨hda.1, hda.2, ?_, ?_, ?_, ?_, ?_, hia.1, hia.2⟩
  · unfold EyeController.blinkSched
    rw [if_pos h]
  · unfold EyeController.blinkSched
    rw [if_pos h]
  · unfold EyeController.blinkSched
    rw [if_pos h]
  · intro e he
    unfold Eye.start_blink
    rw [if_neg he]
  · unfold EyeController.update
    rw [modeDispatch_next, blinkAdvance_next]
    unfold EyeController.blinkSched
    rw [if_pos h]

/-- C7 witness: at `now = 4000000 = next_blink_time` of `ctrl0` with the
lower-bound oracle, the left eye receives `start_blink 4000000 36000` and
the next blink time becomes `4000000 + 36000 * 3 + 4000000`. -/
theorem blink_scheduler_sync_witness :
    (ctrl0.blinkSched rngLo 4000000).left =
      ctrl0.left.start_blink 4000000 36000 ∧
    (ctrl0.update rngLo rngLo rngLo rngLo 4000000 none).next_blink_time =
      4000000 + 36000 * 3 + 4000000 := by
  obtain ⟨-, -, h3, -, -, -, h7, -, -⟩ :=
    blink_scheduler_sync rngLo rngLo rngLo rngLo 4000000 none ctrl0 rngLo_ok
      (by norm_num [ctrl0, EyeController.init, rngLo, BLINK_INTERVAL_MIN])
  exact ⟨h3, h7⟩

/-- C9 counterexample: the rejection of an invalid mode is not visible to
the caller through any boolean/result return value — the Python method
returns `None` on both the invalid call and a valid one, so the two return
values are identical (and carry no boolean). -/
theorem set_mode_return_counterexample :
    (ctrl0.set_mode "invalid").2 = (ctrl0.set_mode "tracking").2 ∧
    (ctrl0.set_mode "invalid").2 = none ∧
    (ctrl0.set_mode "tracking").1.mode = "tracking" ∧
    (ctrl0.set_mode "invalid").1 = ctrl0 := by
  refine ⟨rfl, rfl, rfl, rfl⟩

/-- C9 amended: a valid mode value is installed and an invalid one is
rejected with the controller state (in particular its mode) unchanged;
in both cases `set_mode` returns `None`, so the rejection is signalled
only through the printed log line, not through any return value. -/
theorem set_mode_spec (c : EyeController) (m : String) :
    (m ∈ EYE_MODES_values →
      (c.set_mode m).1.mode = m ∧ (c.set_mode m).2 = none) ∧
    (m ∉ EYE_MODES_values →
      (c.set_mode m).1 = c ∧ (c.set_mode m).2 = none) := by
  unfold EyeController.set_mode
  by_cases h : m ∈ EYE_MODES_values <;> simp [h]

/-- C9 amended witness: `"wandering"` is installed; `"invalid"` leaves the
concrete controller unchanged. -/
theorem set_mode_spec_witness :
    (ctrl0.set_mode "wandering").1.mode = "wandering" ∧
    (ctrl0.set_mode "invalid").1 = ctrl0 :=
  ⟨((set_mode_spec ctrl0 "wandering").1 (by simp [EYE_MODES_values])).1,
    ((set_mode_spec ctrl0 "invalid").2 (by simp [EYE_MODES_values])).1⟩

end
